import Mathlib

/-!
Verification of the trust-registry query engine of the `trqp-ayra-fastapi`
repository.  The Python data model (SQLAlchemy rows in `app/database.py`),
the CRUD layer (`app/crud.py`), the TRQP query handlers
(`app/routers/trqp_core.py`) and the relevant admin routes
(`app/routers/admin.py`) are shallowly embedded as executable Lean
definitions.  Instants (`datetime` values) are modelled as integers: the
code only ever compares them, so any linearly ordered carrier is faithful.
-/

namespace TrustRegistry

/-- Row of the `authorizations` table (`database.py`): an authorization type,
an `(action, resource)` pair with a numeric primary key. -/
structure Authorization where
  id : Nat
  action : String
  resource : String
deriving DecidableEq

/-- Row of the `recognitions` table (`database.py`): a recognition type,
an `(action, resource)` pair with a numeric primary key. -/
structure Recognition where
  id : Nat
  action : String
  resource : String
deriving DecidableEq

/-- Row of the `entities` table (`database.py`).  `authority_id`,
`entity_type` and `status` are nullable columns and are therefore
`Option String`. -/
structure Entity where
  id : Nat
  entity_did : String
  authority_id : Option String
  name : Option String
  entity_type : Option String
  status : Option String
  description : Option String
deriving DecidableEq

/-- Row of the `entity_recognitions` association table (`database.py`):
a RecognitionGrant edge carrying its own payload columns. -/
structure EntityRecognitionRow where
  entity_id : Nat
  recognition_id : Nat
  recognized_registry_did : String
  recognized : Bool
  valid_from : Option Int
  valid_until : Option Int
deriving DecidableEq

/-- The database state read and written by the CRUD layer.
`entity_authorizations` is the plain many-to-many association table
(pairs of `(entity_id, authorization_id)`). -/
structure Store where
  entities : List Entity
  authorizations : List Authorization
  recognitions : List Recognition
  entity_authorizations : List (Nat × Nat)
  entity_recognitions : List EntityRecognitionRow
deriving DecidableEq

namespace Crud

/-- `crud.get_entity_by_did`: `db.query(Entity).filter(Entity.entity_did == did).first()`. -/
def get_entity_by_did (db : Store) (entity_did : String) : Option Entity :=
  db.entities.find? (fun e => e.entity_did == entity_did)

/-- `crud.get_entity`: `db.query(Entity).filter(Entity.id == entity_id).first()`. -/
def get_entity (db : Store) (entity_id : Nat) : Option Entity :=
  db.entities.find? (fun e => e.id == entity_id)

/-- `crud.get_authorization`: lookup of an authorization type by primary key. -/
def get_authorization (db : Store) (auth_id : Nat) : Option Authorization :=
  db.authorizations.find? (fun a => a.id == auth_id)

/-- `crud.get_recognition`: lookup of a recognition type by primary key. -/
def get_recognition (db : Store) (recognition_id : Nat) : Option Recognition :=
  db.recognitions.find? (fun r => r.id == recognition_id)

/-- The ORM relationship `entity.authorizations`: the authorization rows
joined to the entity through the `entity_authorizations` secondary table. -/
def entityAuthorizations (db : Store) (eid : Nat) : List Authorization :=
  (db.entity_authorizations.filter (fun p => p.fst == eid)).filterMap
    (fun p => db.authorizations.find? (fun a => a.id == p.snd))

/-- `crud.check_entity_authorization`: a single SQL filter on
`(entity_did, authority_id, status == "active")` followed by a scan of the
authorization rows of the entity for an exact `(action, resource)` match. -/
def check_entity_authorization (db : Store) (entity_did : String) (authority_id : String)
    (action : String) (resource : String) : Bool :=
  match db.entities.find? (fun e =>
      e.entity_did == entity_did &&
      e.authority_id == some authority_id &&
      e.status == some ("active")) with
  | none => false
  | some entity =>
      (entityAuthorizations db entity.id).any
        (fun auth => auth.action == action && auth.resource == resource)

/-- `crud.get_entity_authorizations_list`: entity looked up by
`(entity_did, authority_id)` — no status filter — and its authorization
rows returned, the empty list when the entity is not found. -/
def get_entity_authorizations_list (db : Store) (entity_did : String)
    (authority_id : String) : List Authorization :=
  match db.entities.find? (fun e =>
      e.entity_did == entity_did && e.authority_id == some authority_id) with
  | none => []
  | some entity => entityAuthorizations db entity.id

/-- `crud.add_entity_authorization`: fetch entity and authorization by
primary key; when both exist and the edge is not already present, append
it to the secondary table.  Returns the fetched entity (if any) together
with the new store state. -/
def add_entity_authorization (db : Store) (entity_id : Nat)
    (authorization_id : Nat) : Option Entity × Store :=
  match get_entity db entity_id, get_authorization db authorization_id with
  | some entity, some authorization =>
      if authorization ∈ entityAuthorizations db entity.id then
        (some entity, db)
      else
        (some entity,
         { db with entity_authorizations :=
            db.entity_authorizations ++ [(entity.id, authorization.id)] })
  | e, _ => (e, db)

/-- The SQL condition `(col == None) | (col <= check_time)` used for
`valid_from` in `crud.check_ecosystem_recognition`. -/
def sqlNullOrLe (bound : Option Int) (check_time : Int) : Bool :=
  match bound with
  | none => true
  | some v => v ≤ check_time

/-- The SQL condition `(col == None) | (col >= check_time)` used for
`valid_until` in `crud.check_ecosystem_recognition`. -/
def sqlNullOrGe (bound : Option Int) (check_time : Int) : Bool :=
  match bound with
  | none => true
  | some v => check_time ≤ v

/-- `crud.check_ecosystem_recognition`: the recognizing entity is fetched
with the filter `(entity_did, entity_type == "ecosystem", status ==
"active")`; then the query asks whether the join of `entity_recognitions`
with `recognitions` contains a row for that entity with the queried
registry DID, `recognized == True`, a matching `(action, resource)` and a
temporal window containing `check_time` (both bounds inclusive, an absent
bound unbounded). -/
def check_ecosystem_recognition (db : Store) (recognizing_ecosystem_did : String)
    (recognized_registry_did : String) (action : String) (resource : String)
    (check_time : Int) : Bool :=
  match db.entities.find? (fun e =>
      e.entity_did == recognizing_ecosystem_did &&
      e.entity_type == some ("ecosystem") &&
      e.status == some ("active")) with
  | none => false
  | some ecosystem =>
      db.entity_recognitions.any (fun r =>
        db.recognitions.any (fun rec =>
          rec.id == r.recognition_id &&
          r.entity_id == ecosystem.id &&
          r.recognized_registry_did == recognized_registry_did &&
          r.recognized &&
          sqlNullOrLe r.valid_from check_time &&
          sqlNullOrGe r.valid_until check_time &&
          rec.action == action &&
          rec.resource == resource))

/-- The Python filter `if r.valid_from and r.valid_from > check_time:
continue` of `crud.get_ecosystem_recognitions_list` (a `datetime` is always
truthy, so truthiness coincides with presence). -/
def listingSkipFrom (valid_from : Option Int) (check_time : Int) : Bool :=
  match valid_from with
  | none => false
  | some v => check_time < v

/-- The Python filter `if r.valid_until and r.valid_until < check_time:
continue` of `crud.get_ecosystem_recognitions_list`. -/
def listingSkipUntil (valid_until : Option Int) (check_time : Int) : Bool :=
  match valid_until with
  | none => false
  | some v => v < check_time

/-- An element of the list returned by `crud.get_ecosystem_recognitions_list`
(the dictionary built per surviving joined row). -/
structure RecognitionListItem where
  recognized_registry_did : String
  action : String
  resource : String
  valid_from : Option Int
  valid_until : Option Int
deriving DecidableEq

/-- `crud.get_ecosystem_recognitions_list`: the ecosystem entity is fetched
with the filter `(entity_did, entity_type == "ecosystem")` — no status
filter; the SQL query joins `entity_recognitions` with `recognitions` and
keeps rows of that entity with `recognized == True`; the temporal window is
then applied in Python by the two skip conditions. -/
def get_ecosystem_recognitions_list (db : Store) (ecosystem_did : String)
    (check_time : Int) : List RecognitionListItem :=
  match db.entities.find? (fun e =>
      e.entity_did == ecosystem_did && e.entity_type == some ("ecosystem")) with
  | none => []
  | some ecosystem =>
      let results := db.entity_recognitions.flatMap (fun r =>
        (db.recognitions.filter (fun rec => rec.id == r.recognition_id)).map
          (fun rec => (r, rec)))
      let results := results.filter (fun p =>
        p.fst.entity_id == ecosystem.id && p.fst.recognized)
      (results.filter (fun p =>
        !(listingSkipFrom p.fst.valid_from check_time) &&
        !(listingSkipUntil p.fst.valid_until check_time))).map
        (fun p =>
          { recognized_registry_did := p.fst.recognized_registry_did
            action := p.snd.action
            resource := p.snd.resource
            valid_from := p.fst.valid_from
            valid_until := p.fst.valid_until })

/-- `crud.add_entity_recognition`: both endpoints are fetched by primary
key; a missing entity yields `None`, a missing recognition type returns the
entity unchanged with no insert, a non-ecosystem entity yields `None`, and
otherwise the new RecognitionGrant row is inserted into
`entity_recognitions`.  No check at all is made on
`recognized_registry_did` or on the order of the two bounds. -/
def add_entity_recognition (db : Store) (entity_id : Nat) (recognition_id : Nat)
    (recognized_registry_did : String) (recognized : Bool)
    (valid_from : Option Int) (valid_until : Option Int) : Option Entity × Store :=
  match get_entity db entity_id with
  | none => (none, db)
  | some entity =>
      match get_recognition db recognition_id with
      | none => (some entity, db)
      | some _ =>
          if entity.entity_type ≠ some ("ecosystem") then
            (none, db)
          else
            (some entity,
             { db with entity_recognitions := db.entity_recognitions ++
                [{ entity_id := entity_id
                   recognition_id := recognition_id
                   recognized_registry_did := recognized_registry_did
                   recognized := recognized
                   valid_from := valid_from
                   valid_until := valid_until }] })

end Crud

/-- A single quotation mark, written by code point so that message strings
can be reproduced verbatim. -/
def sq : String := String.singleton (Char.ofNat 39)

/-- Python `str.startswith`, as a character-level prefix test (equivalent
to `String.startsWith`, stated on the character list so that it reduces by
evaluation). -/
def pyStartsWith (s : String) (pre : String) : Bool :=
  pre.data.isPrefixOf s.data

/-- A JSON value found inside the `context` dictionary of a query.  The
handlers only inspect whether the value is a string (parsed as a datetime)
or a datetime; every other JSON value is opaque to them and is carried as
`other` with a tag. -/
inductive CtxVal where
  | str (s : String)
  | dt (t : Int)
  | other (tag : Nat)
deriving DecidableEq

/-- The optional `context` dictionary of a TRQP query
(`Optional[Dict[str, Any]]` in `models.py`). -/
abbrev Context := Option (List (String × CtxVal))

/-- A Python value passed as a keyword argument to a pydantic response
model constructor. -/
inductive PyValue where
  | vStr (s : String)
  | vBool (b : Bool)
  | vTime (t : Int)
  | vNone
  | vOther (tag : Nat)
  | vContext (c : Context)
deriving DecidableEq

/-- Dictionary lookup `context["time"]` (a Python dict holds each key at
most once, so the first association is the value). -/
def lookupCtx (c : List (String × CtxVal)) (key : String) : Option CtxVal :=
  (c.find? (fun p => p.fst == key)).map (fun p => p.snd)

/-- A raw context value seen as the Python object the handler stores. -/
def ctxToPy : CtxVal → PyValue
  | .str s => .vStr s
  | .dt t => .vTime t
  | .other n => .vOther n

/-- The time-extraction block shared by both handlers in `trqp_core.py`
(lines 51-64 and 176-187).  `time_requested` starts as `None` and
`time_evaluated` as wall-clock `now`; when the context holds a `time`
value, `time_requested` is first assigned the raw value, then — only when
it is a string — reassigned its parse.  A failed parse raises inside the
`try` block, so the raw string stays in `time_requested` while
`time_evaluated` keeps `now`; a successful parse (or any non-string value)
overwrites `time_evaluated` too.  In the recognition handler `check_time`
is assigned exactly alongside `time_evaluated` and always equals it.
`parse` stands for `datetime.fromisoformat` composed with the
`replace(Z, +00:00)` preprocessing; `none` is a raised `ValueError`. -/
def extractTime (ctx : Context) (now : Int) (parse : String → Option Int) :
    Option PyValue × PyValue :=
  match ctx with
  | none => (none, .vTime now)
  | some c =>
      match lookupCtx c ("time") with
      | none => (none, .vTime now)
      | some (.str s) =>
          match parse s with
          | some t => (some (.vTime t), .vTime t)
          | none => (some (.vStr s), .vTime now)
      | some v => (some (ctxToPy v), ctxToPy v)

/-- The instant a `PyValue` denotes when used as `check_time`.  The
handlers reach this only with a datetime value: a non-datetime,
non-string context time would abort inside the SQL comparison in the real
code; that branch is not exercised by any claim and is given an arbitrary
value here. -/
def asInstant : PyValue → Int
  | .vTime t => t
  | _ => 0

/-- The declared pydantic type of a response-model field in `models.py`. -/
inductive PyFieldType where
  | tStr
  | tBool
  | tDatetime
  | tOptDatetime
  | tOptStr
  | tCtx
deriving DecidableEq

/-- One declared field of a pydantic response model: its name, whether it
is required (declared with `Field(...)` and no default), and its declared
type. -/
structure PyField where
  name : String
  required : Bool
  type : PyFieldType
deriving DecidableEq

/-- The outcome of one TRQP handler invocation: an `HTTPException` raised
by the handler (status code and the `title` of its ProblemDetails body), a
pydantic `ValidationError` escaping the response-model constructor
(naming the offending field, with the keyword arguments that were
passed), or the constructed response as a field assignment. -/
inductive HandlerResult where
  | httpError (status : Nat) (title : String)
  | validationError (offendingField : String) (kwargs : List (String × PyValue))
  | ok (fields : List (String × PyValue))
deriving DecidableEq

/-- Field lookup in a keyword-argument / constructed-response list. -/
def kwLookup (kwargs : List (String × PyValue)) (key : String) : Option PyValue :=
  (kwargs.find? (fun kw => kw.fst == key)).map (fun kw => kw.snd)

/-- Pydantic validation and coercion of one supplied value against a
declared field type.  `pydParse` stands for the datetime parser pydantic
itself applies to string input of a `datetime`-typed field — a library
grammar distinct from the handlers' explicit `datetime.fromisoformat`
call, so it is carried as a parameter; `none` is a failed validation.  A
non-string, non-datetime context `time` value reaching a datetime field
is modelled as rejected (that branch is outside every claim). -/
def pydanticCoerce (pydParse : String → Option Int) :
    PyFieldType → PyValue → Option PyValue
  | .tStr, .vStr s => some (.vStr s)
  | .tBool, .vBool b => some (.vBool b)
  | .tDatetime, .vTime t => some (.vTime t)
  | .tDatetime, .vStr s => (pydParse s).map (fun t => .vTime t)
  | .tOptDatetime, .vNone => some (.vNone)
  | .tOptDatetime, .vTime t => some (.vTime t)
  | .tOptDatetime, .vStr s => (pydParse s).map (fun t => .vTime t)
  | .tOptStr, .vNone => some (.vNone)
  | .tOptStr, .vStr s => some (.vStr s)
  | .tCtx, .vContext c => some (.vContext c)
  | _, _ => none

/-- Pydantic `BaseModel` keyword construction as both handlers use it:
fields are validated in declaration order; a required field receiving no
value, or a supplied value failing the field type validation, raises a
`ValidationError` (modelled by the first offending field in declaration
order); an unknown keyword argument is ignored (the default `extra`
behaviour); a valid value is stored after coercion.  An absent optional
field takes its null default and is left out of the assignment — the
handlers always supply every declared field. -/
def pydanticConstructFields (pydParse : String → Option Int) :
    List PyField → List (String × PyValue) →
    Except String (List (String × PyValue))
  | [], _ => .ok []
  | f :: fs, kwargs =>
      match kwLookup kwargs f.name with
      | none =>
          if f.required then .error f.name
          else pydanticConstructFields pydParse fs kwargs
      | some v =>
          match pydanticCoerce pydParse f.type v with
          | none => .error f.name
          | some v2 =>
              (pydanticConstructFields pydParse fs kwargs).map
                (fun rest => (f.name, v2) :: rest)

/-- Outcome of one pydantic response construction as a `HandlerResult`. -/
def pydanticConstruct (pydParse : String → Option Int) (fields : List PyField)
    (kwargs : List (String × PyValue)) : HandlerResult :=
  match pydanticConstructFields pydParse fields kwargs with
  | .error f => .validationError f kwargs
  | .ok fs => .ok fs

/-- The fields of `models.TrqpRecognitionResponse`: the boolean outcome
field is `recognized` and is required; `time_requested` is declared
`Optional[datetime]` and `time_evaluated` `datetime`. -/
def trqpRecognitionResponseFields : List PyField :=
  [⟨("entity_id"), true, .tStr⟩, ⟨("authority_id"), true, .tStr⟩,
   ⟨("action"), true, .tStr⟩, ⟨("resource"), true, .tStr⟩,
   ⟨("recognized"), true, .tBool⟩,
   ⟨("time_requested"), false, .tOptDatetime⟩,
   ⟨("time_evaluated"), true, .tDatetime⟩,
   ⟨("message"), false, .tOptStr⟩, ⟨("context"), false, .tCtx⟩]

/-- The fields of `models.TrqpAuthorizationResponse`: the boolean outcome
field is declared `assertion_verified` (required) — there is no field
named `authorized`; the time fields are typed as in the recognition
model. -/
def trqpAuthorizationResponseFields : List PyField :=
  [⟨("entity_id"), true, .tStr⟩, ⟨("authority_id"), true, .tStr⟩,
   ⟨("action"), true, .tStr⟩, ⟨("resource"), true, .tStr⟩,
   ⟨("assertion_verified"), true, .tBool⟩,
   ⟨("time_requested"), false, .tOptDatetime⟩,
   ⟨("time_evaluated"), true, .tDatetime⟩,
   ⟨("message"), false, .tOptStr⟩, ⟨("context"), false, .tCtx⟩]

/-- `models.TrqpRecognitionQuery` / `models.TrqpAuthorizationQuery`: both
share the same shape. -/
structure TrqpQuery where
  entity_id : String
  authority_id : String
  action : String
  resource : String
  context : Context
deriving DecidableEq

/-- An optional Python value passed as a keyword argument (`None` when
absent). -/
def optPyValue : Option PyValue → PyValue
  | none => .vNone
  | some v => v

/-- Renders an `Option String` the way a Python f-string renders the
attribute (`None` for a null column). -/
def pyShowOpt : Option String → String
  | none => "None"
  | some s => s

/-- Message "Entity not found in the trust registry" with the quoted DID,
as in `trqp_core.py` line 225. -/
def authzEntityNotFoundMessage (entity_id : String) : String :=
  "Entity " ++ sq ++ entity_id ++ sq ++ " not found in the trust registry"

/-- Message of the authority-mismatch branch, `trqp_core.py` line 239. -/
def authzNotGovernedMessage (entity_id : String) (authority_id : String) : String :=
  "Entity " ++ sq ++ entity_id ++ sq ++ " is not governed by authority " ++
    sq ++ authority_id ++ sq

/-- Message of the inactive-entity branch, `trqp_core.py` line 253. -/
def authzNotActiveMessage (entity_id : String) (entityStatus : Option String) : String :=
  "Entity " ++ sq ++ entity_id ++ sq ++ " is not active (status: " ++
    pyShowOpt entityStatus ++ ")"

/-- Message of the final authorization branches, `trqp_core.py`
lines 266-269. -/
def authzOutcomeMessage (has_authorization : Bool) (q : TrqpQuery) : String :=
  if has_authorization then
    "Entity " ++ sq ++ q.entity_id ++ sq ++ " is authorized by " ++ sq ++
      q.authority_id ++ sq ++ " for action " ++ sq ++ q.action ++ sq ++
      " on resource " ++ sq ++ q.resource ++ sq
  else
    "Entity " ++ sq ++ q.entity_id ++ sq ++ " is NOT authorized by " ++ sq ++
      q.authority_id ++ sq ++ " for action " ++ sq ++ q.action ++ sq ++
      " on resource " ++ sq ++ q.resource ++ sq

/-- Message of the recognition outcome, `trqp_core.py` lines 130-134. -/
def recognitionOutcomeMessage (recognized : Bool) (q : TrqpQuery) : String :=
  if recognized then
    "Ecosystem " ++ sq ++ q.authority_id ++ sq ++ " recognizes registry " ++
      sq ++ q.entity_id ++ sq ++ " for action " ++ sq ++ q.action ++ sq ++
      " on resource " ++ sq ++ q.resource ++ sq
  else
    "Ecosystem " ++ sq ++ q.authority_id ++ sq ++ " does not recognize registry " ++
      sq ++ q.entity_id ++ sq ++ " for action " ++ sq ++ q.action ++ sq ++
      " on resource " ++ sq ++ q.resource ++ sq

namespace TrqpCore

/-- The keyword arguments of every `TrqpAuthorizationResponse(...)` call in
`query_authorization` (all four return sites pass the same keyword names;
only `authorized` and `message` differ in value).  Note the outcome is
passed under the keyword `authorized`. -/
def authorizationKwargs (q : TrqpQuery) (time_requested : Option PyValue)
    (time_evaluated : PyValue) (authorized : Bool) (message : String) :
    List (String × PyValue) :=
  [(("entity_id"), .vStr q.entity_id),
   (("authority_id"), .vStr q.authority_id),
   (("action"), .vStr q.action),
   (("resource"), .vStr q.resource),
   (("authorized"), .vBool authorized),
   (("time_requested"), optPyValue time_requested),
   (("time_evaluated"), time_evaluated),
   (("message"), .vStr message),
   (("context"), .vContext q.context)]

/-- The `TrqpAuthorizationResponse(...)` constructor call. -/
def buildAuthorizationResponse (q : TrqpQuery) (pydParse : String → Option Int)
    (time_requested : Option PyValue) (time_evaluated : PyValue)
    (authorized : Bool) (message : String) : HandlerResult :=
  pydanticConstruct pydParse trqpAuthorizationResponseFields
    (authorizationKwargs q time_requested time_evaluated authorized message)

/-- The keyword arguments of the `TrqpRecognitionResponse(...)` call in
`query_recognition` (line 136). -/
def recognitionKwargs (q : TrqpQuery) (time_requested : Option PyValue)
    (time_evaluated : PyValue) (recognized : Bool) (message : String) :
    List (String × PyValue) :=
  [(("entity_id"), .vStr q.entity_id),
   (("authority_id"), .vStr q.authority_id),
   (("action"), .vStr q.action),
   (("resource"), .vStr q.resource),
   (("recognized"), .vBool recognized),
   (("time_requested"), optPyValue time_requested),
   (("time_evaluated"), time_evaluated),
   (("message"), .vStr message),
   (("context"), .vContext q.context)]

/-- The `TrqpRecognitionResponse(...)` constructor call. -/
def buildRecognitionResponse (q : TrqpQuery) (pydParse : String → Option Int)
    (time_requested : Option PyValue) (time_evaluated : PyValue)
    (recognized : Bool) (message : String) : HandlerResult :=
  pydanticConstruct pydParse trqpRecognitionResponseFields
    (recognitionKwargs q time_requested time_evaluated recognized message)

/-- `trqp_core.query_recognition`: time extraction, the two DID shape
checks (404), resolution of the recognizing ecosystem (404 when absent,
400 when not of type `ecosystem`), an unused lookup of the queried
registry, the CRUD recognition check at `check_time`, and the response
construction. -/
def query_recognition (db : Store) (q : TrqpQuery) (now : Int)
    (parse pydParse : String → Option Int) : HandlerResult :=
  let te := extractTime q.context now parse
  let time_requested := te.fst
  let time_evaluated := te.snd
  let check_time := te.snd
  if !(pyStartsWith q.entity_id ("did:")) then
    .httpError 404 ("Entity Not Found")
  else if !(pyStartsWith q.authority_id ("did:")) then
    .httpError 404 ("Authority Not Found")
  else
    match Crud.get_entity_by_did db q.authority_id with
    | none => .httpError 404 ("Recognizing Ecosystem Not Found")
    | some recognizing_ecosystem =>
        if recognizing_ecosystem.entity_type ≠ some ("ecosystem") then
          .httpError 400 ("Invalid Entity Type")
        else
          let _recognized_registry := Crud.get_entity_by_did db q.entity_id
          let recognized := Crud.check_ecosystem_recognition db q.authority_id
            q.entity_id q.action q.resource (asInstant check_time)
          buildRecognitionResponse q pydParse time_requested time_evaluated recognized
            (recognitionOutcomeMessage recognized q)

/-- `trqp_core.query_authorization`: time extraction, the two DID shape
checks (404), then every remaining branch — entity not found, authority
mismatch, inactive entity, grant scan — ends in a
`TrqpAuthorizationResponse(...)` construction. -/
def query_authorization (db : Store) (q : TrqpQuery) (now : Int)
    (parse pydParse : String → Option Int) : HandlerResult :=
  let te := extractTime q.context now parse
  let time_requested := te.fst
  let time_evaluated := te.snd
  if !(pyStartsWith q.entity_id ("did:")) then
    .httpError 404 ("Entity Not Found")
  else if !(pyStartsWith q.authority_id ("did:")) then
    .httpError 404 ("Authority Not Found")
  else
    match Crud.get_entity_by_did db q.entity_id with
    | none =>
        buildAuthorizationResponse q pydParse time_requested time_evaluated false
          (authzEntityNotFoundMessage q.entity_id)
    | some entity =>
        if entity.authority_id ≠ some q.authority_id then
          buildAuthorizationResponse q pydParse time_requested time_evaluated false
            (authzNotGovernedMessage q.entity_id q.authority_id)
        else if entity.status ≠ some ("active") then
          buildAuthorizationResponse q pydParse time_requested time_evaluated false
            (authzNotActiveMessage q.entity_id entity.status)
        else
          let authorizations := Crud.get_entity_authorizations_list db
            q.entity_id q.authority_id
          let has_authorization := authorizations.any (fun auth =>
            auth.action == q.action && auth.resource == q.resource)
          buildAuthorizationResponse q pydParse time_requested time_evaluated
            has_authorization (authzOutcomeMessage has_authorization q)

end TrqpCore

/-- An `HTTPException` raised by an admin route: status code and the
`detail` string (interpolated DIDs elided from the detail where the
source formats them in). -/
structure HttpError where
  status : Nat
  detail : String
deriving DecidableEq

/-- Python truthiness of an optional string (`None` and the empty string
are falsy). -/
def pyTruthyStr : Option String → Bool
  | none => false
  | some s => !(s.data.isEmpty)

/-- `admin.EntityCreate`: the request body of `POST /entities`.  `status`
has the pydantic default `"active"`. -/
structure EntityCreate where
  entity_did : String
  authority_id : Option String
  name : Option String
  entity_type : Option String
  status : String
  description : Option String
  authorization_ids : Option (List Nat)
deriving DecidableEq

/-- `admin.EntityUpdate` under `dict(exclude_unset=True)`: for each column
the outer `Option` records whether the field was supplied at all and the
inner `Option` is the supplied value (which may be an explicit null).
`entity_did` set to an explicit null would violate the NOT NULL column and
abort the transaction; that case is not modelled.  A supplied
`authorization_ids` of null behaves as unset in `crud.update_entity`
(`if authorization_ids is not None`), so a single `Option` suffices. -/
structure EntityUpdate where
  entity_did : Option String
  authority_id : Option (Option String)
  name : Option (Option String)
  entity_type : Option (Option String)
  status : Option (Option String)
  description : Option (Option String)
  authorization_ids : Option (List Nat)
deriving DecidableEq

/-- `admin.EntityRecognitionCreate`: the request body of
`POST /entities/id/recognitions`; the two bounds arrive as optional ISO
8601 strings. -/
structure EntityRecognitionCreate where
  recognition_id : Nat
  recognized_registry_did : String
  recognized : Bool
  valid_from : Option String
  valid_until : Option String
deriving DecidableEq

namespace Crud

/-- The autoincrement primary key the database assigns to a new entity
row. -/
def nextEntityId (db : Store) : Nat :=
  (db.entities.map (fun e => e.id)).foldr max 0 + 1

/-- Assignment `entity.authorizations = rows` where the rows are
`db.query(Authorization).filter(Authorization.id.in_(ids)).all()`: every
existing edge of the entity is dropped from the secondary table and one
edge per matching authorization row is written. -/
def setEntityAuthorizations (db : Store) (eid : Nat) (ids : List Nat) : Store :=
  let kept := db.entity_authorizations.filter (fun p => !(p.fst == eid))
  let added := (db.authorizations.filter (fun a => ids.contains a.id)).map
    (fun a => (eid, a.id))
  { db with entity_authorizations := kept ++ added }

/-- `crud.create_entity`: build the row, attach the authorization rows
when a non-empty id list is supplied (`if authorization_ids:` — Python
truthiness, so `None` and `[]` both skip), insert and return it. -/
def create_entity (db : Store) (e : EntityCreate) : Store × Entity :=
  let newId := nextEntityId db
  let entity : Entity :=
    { id := newId
      entity_did := e.entity_did
      authority_id := e.authority_id
      name := e.name
      entity_type := e.entity_type
      status := some e.status
      description := e.description }
  let db1 := { db with entities := db.entities ++ [entity] }
  match e.authorization_ids with
  | some ids =>
      if ids.isEmpty then (db1, entity)
      else (setEntityAuthorizations db1 newId ids, entity)
  | none => (db1, entity)

/-- The per-field `setattr` loop of `crud.update_entity` (the
`authorizations` key is excluded there and handled separately). -/
def applyEntityUpdate (e : Entity) (u : EntityUpdate) : Entity :=
  { e with
    entity_did := u.entity_did.getD e.entity_did
    authority_id := u.authority_id.getD e.authority_id
    name := u.name.getD e.name
    entity_type := u.entity_type.getD e.entity_type
    status := u.status.getD e.status
    description := u.description.getD e.description }

/-- `crud.update_entity`: `None` when the entity id is unknown; otherwise
the supplied fields are written and, when `authorization_ids` is supplied
(even as the empty list), the authorization edge set is replaced. -/
def update_entity (db : Store) (entity_id : Nat) (u : EntityUpdate) :
    Option (Store × Entity) :=
  match get_entity db entity_id with
  | none => none
  | some e =>
      let e2 := applyEntityUpdate e u
      let newEntities := db.entities.map (fun x => if x.id == entity_id then e2 else x)
      let db1 := { db with entities := newEntities }
      match u.authorization_ids with
      | some ids => some (setEntityAuthorizations db1 entity_id ids, e2)
      | none => some (db1, e2)

end Crud

namespace Admin

/-- The authority validation of `admin.create_entity` (lines 450-466): a
truthy `authority_id` must be DID-shaped and resolve to a stored entity
that is active and of type `ecosystem`, each failure with its own 400
detail; a falsy `authority_id` is only allowed for an `ecosystem` entity
type. -/
def create_entity_authority_validation (db : Store) (e : EntityCreate) :
    Except HttpError Unit :=
  if pyTruthyStr e.authority_id then
    let a := e.authority_id.getD ("")
    if !(pyStartsWith a ("did:")) then
      .error ⟨400, ("authority_id must be a valid DID URI")⟩
    else
      match Crud.get_entity_by_did db a with
      | none => .error ⟨400, ("authority_id must reference an existing entity")⟩
      | some authority_entity =>
          if authority_entity.status ≠ some ("active") then
            .error ⟨400, ("authority_id must reference an active entity")⟩
          else if authority_entity.entity_type ≠ some ("ecosystem") then
            .error ⟨400, ("authority_id must reference an ecosystem entity")⟩
          else .ok ()
  else if e.entity_type ≠ some ("ecosystem") then
    .error ⟨400, ("Non-ecosystem entities must have an authority_id")⟩
  else .ok ()

/-- `admin.create_entity` (`POST /entities`): DID shape check on
`entity_did`, duplicate check, authority validation, then
`crud.create_entity`. -/
def create_entity (db : Store) (e : EntityCreate) :
    Except HttpError (Store × Entity) :=
  if !(pyStartsWith e.entity_did ("did:")) then
    .error ⟨400, ("entity_did must be a valid DID URI")⟩
  else
    match Crud.get_entity_by_did db e.entity_did with
    | some _ => .error ⟨400, ("Entity with this DID already exists")⟩
    | none => do
        create_entity_authority_validation db e
        .ok (Crud.create_entity db e)

/-- The `entity_type` used to validate removal of the authority in
`admin.update_entity` (line 518): the supplied value when the field is in
the update, the current value otherwise. -/
def entityTypeForValidation (u : EntityUpdate) (current : Entity) : Option String :=
  match u.entity_type with
  | some tv => tv
  | none => current.entity_type

/-- The authority validation of `admin.update_entity` (lines 495-521),
performed only when the `authority_id` field is supplied: a truthy value
goes through the same four checks as creation; a falsy value (removing
the authority) requires the entity to exist and its effective type to be
`ecosystem`. -/
def update_entity_authority_validation (db : Store) (entity_id : Nat)
    (u : EntityUpdate) : Except HttpError Unit :=
  match u.authority_id with
  | none => .ok ()
  | some v =>
      if pyTruthyStr v then
        let a := v.getD ("")
        if !(pyStartsWith a ("did:")) then
          .error ⟨400, ("authority_id must be a valid DID URI")⟩
        else
          match Crud.get_entity_by_did db a with
          | none => .error ⟨400, ("authority_id must reference an existing entity")⟩
          | some authority_entity =>
              if authority_entity.status ≠ some ("active") then
                .error ⟨400, ("authority_id must reference an active entity")⟩
              else if authority_entity.entity_type ≠ some ("ecosystem") then
                .error ⟨400, ("authority_id must reference an ecosystem entity")⟩
              else .ok ()
      else
        match Crud.get_entity db entity_id with
        | none => .error ⟨404, ("Entity not found")⟩
        | some current_entity =>
            if entityTypeForValidation u current_entity ≠ some ("ecosystem") then
              .error ⟨400, ("Non-ecosystem entities must have an authority_id")⟩
            else .ok ()

/-- `admin.update_entity` (`PUT /entities/id`): shape check on a supplied
truthy `entity_did`, authority validation, then `crud.update_entity` with
a 404 when the id is unknown. -/
def update_entity (db : Store) (entity_id : Nat) (u : EntityUpdate) :
    Except HttpError (Store × Entity) :=
  if (match u.entity_did with
      | some d => !(d.data.isEmpty) && !(pyStartsWith d ("did:"))
      | none => false) then
    .error ⟨400, ("entity_did must be a valid DID URI")⟩
  else do
    update_entity_authority_validation db entity_id u
    match Crud.update_entity db entity_id u with
    | none => .error ⟨404, ("Entity not found")⟩
    | some r => .ok r

/-- The bound parsing of `admin.add_entity_recognition` (lines 611-624): a
falsy bound stays `None`; a truthy string is parsed, a `ValueError`
becoming a 400.  The outer `Option` is the parse outcome, the inner the
stored bound. -/
def parseBound (bound : Option String) (parse : String → Option Int) :
    Option (Option Int) :=
  match bound with
  | none => some none
  | some s =>
      if s.data.isEmpty then some none
      else
        match parse s with
        | some t => some (some t)
        | none => none

/-- `admin.add_entity_recognition` (`POST /entities/id/recognitions`):
404 for an unknown entity, 400 for a non-ecosystem owner, 400 for
self-recognition, 400 when the recognized registry DID resolves to no
stored entity, 400 for an unparseable bound, then
`crud.add_entity_recognition`.  No comparison of the two bounds is ever
made. -/
def add_entity_recognition (db : Store) (entity_id : Nat)
    (recog_create : EntityRecognitionCreate) (parse : String → Option Int) :
    Except HttpError Store :=
  match Crud.get_entity db entity_id with
  | none => .error ⟨404, ("Entity not found")⟩
  | some entity =>
      if entity.entity_type ≠ some ("ecosystem") then
        .error ⟨400, ("Only ecosystems can have recognitions")⟩
      else if entity.entity_did = recog_create.recognized_registry_did then
        .error ⟨400, ("An entity cannot recognize itself")⟩
      else
        match Crud.get_entity_by_did db recog_create.recognized_registry_did with
        | none =>
            .error ⟨400, ("Recognized registry DID does not exist in the system")⟩
        | some _ =>
            match parseBound recog_create.valid_from parse with
            | none => .error ⟨400, ("Invalid valid_from datetime format")⟩
            | some valid_from =>
                match parseBound recog_create.valid_until parse with
                | none => .error ⟨400, ("Invalid valid_until datetime format")⟩
                | some valid_until =>
                    let r := Crud.add_entity_recognition db entity_id
                      recog_create.recognition_id
                      recog_create.recognized_registry_did
                      recog_create.recognized valid_from valid_until
                    match r.fst with
                    | none => .error ⟨404, ("Entity or recognition not found")⟩
                    | some _ => .ok r.snd

end Admin

/-- The error codes of the Hierarchy Validator as the specification names
them. -/
inductive HierarchyError where
  | MissingAuthority
  | AuthorityNotFound
  | AuthorityInactive
  | AuthorityNotEcosystem
deriving DecidableEq

/-- Modelled from the spec (section 4.2 Hierarchy Validator, a component
the source inlines in the admin routes rather than defining once): a null
candidate authority is valid only for an `ecosystem` entity type
(otherwise `MissingAuthority`); a present candidate must resolve to a
stored entity with `status == "active"` and `entity_type == "ecosystem"`
(otherwise `AuthorityNotFound`, `AuthorityInactive`,
`AuthorityNotEcosystem` respectively). -/
def validateAuthority (candidate : Option String) (entityType : Option String)
    (db : Store) : Except HierarchyError Unit :=
  match candidate with
  | none =>
      if entityType = some ("ecosystem") then .ok ()
      else .error .MissingAuthority
  | some a =>
      match Crud.get_entity_by_did db a with
      | none => .error .AuthorityNotFound
      | some authority =>
          if authority.status ≠ some ("active") then .error .AuthorityInactive
          else if authority.entity_type ≠ some ("ecosystem") then
            .error .AuthorityNotEcosystem
          else .ok ()

/-- The 400 detail string the admin routes emit for each hierarchy
violation. -/
def hierarchyMsg : HierarchyError → String
  | .MissingAuthority => "Non-ecosystem entities must have an authority_id"
  | .AuthorityNotFound => "authority_id must reference an existing entity"
  | .AuthorityInactive => "authority_id must reference an active entity"
  | .AuthorityNotEcosystem => "authority_id must reference an ecosystem entity"

/-! ### Concrete fixtures used by witnesses and counterexamples -/

/-- A parse function under which no string is a valid datetime. -/
def noParse : String → Option Int := fun _ => none

/-- A parse function mapping two fixed strings to the instants 10 and 5. -/
def twoDates : String → Option Int := fun s =>
  if s = "B" then some 10 else if s = "A" then some 5 else none

/-- A root ecosystem entity, active. -/
def ecoEntity : Entity :=
  { id := 1, entity_did := "did:ex:eco", authority_id := none, name := none,
    entity_type := some ("ecosystem"), status := some ("active"),
    description := none }

/-- An organization entity governed by the sample ecosystem. -/
def regEntity : Entity :=
  { id := 2, entity_did := "did:ex:reg", authority_id := some ("did:ex:eco"),
    name := none, entity_type := some ("organization"),
    status := some ("active"), description := none }

/-- An inactive ecosystem entity. -/
def dormantEco : Entity :=
  { id := 3, entity_did := "did:ex:dormant", authority_id := none, name := none,
    entity_type := some ("ecosystem"), status := some ("inactive"),
    description := none }

/-- A recognition type row. -/
def recogType : Recognition :=
  { id := 1, action := "recognize", resource := "ecosystem" }

/-- An authorization type row. -/
def authType : Authorization :=
  { id := 1, action := "issue", resource := "credential" }

/-- A small store: one active ecosystem, one governed organization, one
dormant ecosystem, one recognition type, one authorization type. -/
def sampleStore : Store :=
  { entities := [ecoEntity, regEntity, dormantEco]
    authorizations := [authType]
    recognitions := [recogType]
    entity_authorizations := []
    entity_recognitions := [] }

/-- The empty store. -/
def emptyStore : Store :=
  { entities := [], authorizations := [], recognitions := []
    entity_authorizations := [], entity_recognitions := [] }

/-! ### Helper lemmas -/

/-- Constructing a `TrqpAuthorizationResponse` with the keyword arguments
used by `query_authorization` always raises: the required field
`assertion_verified` receives no value (the handler passes the unknown
keyword `authorized`, which pydantic ignores), and fields are validated
in declaration order, so this error is hit before the time fields. -/
theorem buildAuthorizationResponse_raises (q : TrqpQuery)
    (pydParse : String → Option Int) (tr : Option PyValue) (tev : PyValue)
    (b : Bool) (m : String) :
    TrqpCore.buildAuthorizationResponse q pydParse tr tev b m =
      HandlerResult.validationError ("assertion_verified")
        (TrqpCore.authorizationKwargs q tr tev b m) := rfl

/-- Constructing a `TrqpRecognitionResponse` with a null `time_requested`
and a datetime `time_evaluated` succeeds, every value stored unchanged. -/
theorem buildRecognitionResponse_ok_none (q : TrqpQuery)
    (pydParse : String → Option Int) (t : Int) (b : Bool) (m : String) :
    TrqpCore.buildRecognitionResponse q pydParse none (.vTime t) b m =
      HandlerResult.ok (TrqpCore.recognitionKwargs q none (.vTime t) b m) := rfl

/-- Constructing a `TrqpRecognitionResponse` with a datetime
`time_requested` succeeds, every value stored unchanged. -/
theorem buildRecognitionResponse_ok_time (q : TrqpQuery)
    (pydParse : String → Option Int) (t0 t : Int) (b : Bool) (m : String) :
    TrqpCore.buildRecognitionResponse q pydParse (some (.vTime t0)) (.vTime t) b m =
      HandlerResult.ok
        (TrqpCore.recognitionKwargs q (some (.vTime t0)) (.vTime t) b m) := rfl

/-- A raw string in `time_requested` that pydantic cannot parse makes the
recognition construction raise, naming that field. -/
theorem buildRecognitionResponse_badStr (q : TrqpQuery)
    (pydParse : String → Option Int) (s : String) (t : Int) (b : Bool)
    (m : String) (hp : pydParse s = none) :
    TrqpCore.buildRecognitionResponse q pydParse (some (.vStr s)) (.vTime t) b m =
      HandlerResult.validationError ("time_requested")
        (TrqpCore.recognitionKwargs q (some (.vStr s)) (.vTime t) b m) := by
  simp [TrqpCore.buildRecognitionResponse, TrqpCore.recognitionKwargs,
    pydanticConstruct, pydanticConstructFields, pydanticCoerce, kwLookup,
    trqpRecognitionResponseFields, optPyValue, hp, Except.map]

/-- A raw string in `time_requested` that pydantic parses is stored as
the parsed datetime, not as the string. -/
theorem buildRecognitionResponse_coerced (q : TrqpQuery)
    (pydParse : String → Option Int) (s : String) (t0 t : Int) (b : Bool)
    (m : String) (hp : pydParse s = some t0) :
    TrqpCore.buildRecognitionResponse q pydParse (some (.vStr s)) (.vTime t) b m =
      HandlerResult.ok
        (TrqpCore.recognitionKwargs q (some (.vTime t0)) (.vTime t) b m) := by
  simp [TrqpCore.buildRecognitionResponse, TrqpCore.recognitionKwargs,
    pydanticConstruct, pydanticConstructFields, pydanticCoerce, kwLookup,
    trqpRecognitionResponseFields, optPyValue, hp, Except.map]

theorem authorizationKwargs_authorized (q : TrqpQuery) (tr : Option PyValue)
    (tev : PyValue) (b : Bool) (m : String) :
    kwLookup (TrqpCore.authorizationKwargs q tr tev b m) ("authorized") =
      some (.vBool b) := rfl

theorem authorizationKwargs_time_requested (q : TrqpQuery) (tr : Option PyValue)
    (tev : PyValue) (b : Bool) (m : String) :
    kwLookup (TrqpCore.authorizationKwargs q tr tev b m) ("time_requested") =
      some (optPyValue tr) := rfl

theorem authorizationKwargs_time_evaluated (q : TrqpQuery) (tr : Option PyValue)
    (tev : PyValue) (b : Bool) (m : String) :
    kwLookup (TrqpCore.authorizationKwargs q tr tev b m) ("time_evaluated") =
      some tev := rfl

theorem authorizationKwargs_message (q : TrqpQuery) (tr : Option PyValue)
    (tev : PyValue) (b : Bool) (m : String) :
    kwLookup (TrqpCore.authorizationKwargs q tr tev b m) ("message") =
      some (.vStr m) := rfl

theorem recognitionKwargs_recognized (q : TrqpQuery) (tr : Option PyValue)
    (tev : PyValue) (b : Bool) (m : String) :
    kwLookup (TrqpCore.recognitionKwargs q tr tev b m) ("recognized") =
      some (.vBool b) := rfl

theorem recognitionKwargs_time_requested (q : TrqpQuery) (tr : Option PyValue)
    (tev : PyValue) (b : Bool) (m : String) :
    kwLookup (TrqpCore.recognitionKwargs q tr tev b m) ("time_requested") =
      some (optPyValue tr) := rfl

theorem recognitionKwargs_time_evaluated (q : TrqpQuery) (tr : Option PyValue)
    (tev : PyValue) (b : Bool) (m : String) :
    kwLookup (TrqpCore.recognitionKwargs q tr tev b m) ("time_evaluated") =
      some tev := rfl

/-- With no context, both timestamps default to wall-clock now. -/
theorem extractTime_none (now : Int) (parse : String → Option Int) :
    extractTime none now parse = (none, .vTime now) := rfl

/-- A context time string that fails to parse: the raw string stays in
`time_requested`, `time_evaluated` stays wall-clock now. -/
theorem extractTime_badString (c : List (String × CtxVal)) (s : String)
    (now : Int) (parse : String → Option Int)
    (hc : lookupCtx c ("time") = some (.str s)) (hp : parse s = none) :
    extractTime (some c) now parse = (some (.vStr s), .vTime now) := by
  simp only [extractTime, hc, hp]

theorem sqlNullOrLe_iff (b : Option Int) (t : Int) :
    Crud.sqlNullOrLe b t = true ↔ ∀ v, b = some v → v ≤ t := by
  cases b <;> simp [Crud.sqlNullOrLe]

theorem sqlNullOrGe_iff (b : Option Int) (t : Int) :
    Crud.sqlNullOrGe b t = true ↔ ∀ v, b = some v → t ≤ v := by
  cases b <;> simp [Crud.sqlNullOrGe]

/-! ### Claims -/

/-- C3.  Temporal validity in `check_ecosystem_recognition` holds iff
(`valid_from` absent or `valid_from <= at`) and (`valid_until` absent or
`valid_until >= at`): both bounds inclusive, an absent bound unbounded;
and the keep-condition of `get_ecosystem_recognitions_list` is exactly the
same predicate. -/
theorem claim_C3_temporal_validity_inclusive (vf vu : Option Int) (t : Int) :
    ((Crud.sqlNullOrLe vf t && Crud.sqlNullOrGe vu t) = true ↔
      ((∀ v, vf = some v → v ≤ t) ∧ (∀ v, vu = some v → t ≤ v)))
    ∧ (!(Crud.listingSkipFrom vf t) && !(Crud.listingSkipUntil vu t))
        = (Crud.sqlNullOrLe vf t && Crud.sqlNullOrGe vu t) := by
  constructor
  · cases vf <;> cases vu <;>
      simp [Crud.sqlNullOrLe, Crud.sqlNullOrGe]
  · have h1 : ∀ v : Int, (!(decide (t < v))) = decide (v ≤ t) := by
      intro v; rw [← decide_not, decide_eq_decide]; omega
    have h2 : ∀ v : Int, (!(decide (v < t))) = decide (t ≤ v) := by
      intro v; rw [← decide_not, decide_eq_decide]; omega
    cases vf <;> cases vu <;>
      simp only [Crud.sqlNullOrLe, Crud.sqlNullOrGe, Crud.listingSkipFrom,
        Crud.listingSkipUntil, Bool.not_false, h1, h2]

/-- Witness for C3 at concrete bounds. -/
theorem claim_C3_witness :
    ((Crud.sqlNullOrLe (some 1) 3 && Crud.sqlNullOrGe (some 5) 3) = true ↔
      ((∀ v, (some 1 : Option Int) = some v → v ≤ 3) ∧
       (∀ v, (some 5 : Option Int) = some v → (3 : Int) ≤ v)))
    ∧ (!(Crud.listingSkipFrom (some 1) 3) && !(Crud.listingSkipUntil (some 5) 3))
        = (Crud.sqlNullOrLe (some 1) 3 && Crud.sqlNullOrGe (some 5) 3) :=
  claim_C3_temporal_validity_inclusive (some 1) (some 5) 3

/-- An authorization row reachable through a pair of the secondary table is
a member of the ORM relationship list. -/
theorem mem_entityAuthorizations_of_pair (db : Store) (eid : Nat)
    (a : Authorization)
    (hfind : db.authorizations.find? (fun x => x.id == a.id) = some a)
    (hp : (eid, a.id) ∈ db.entity_authorizations) :
    a ∈ Crud.entityAuthorizations db eid := by
  unfold Crud.entityAuthorizations
  refine List.mem_filterMap.mpr ⟨(eid, a.id), ?_, ?_⟩
  · exact List.mem_filter.mpr ⟨hp, by simp⟩
  · exact hfind

/-- C9.  `add_entity_authorization` is idempotent: applying it twice with
the same `(entity, authorization)` pair leaves the same store as applying
it once. -/
theorem claim_C9_add_entity_authorization_idempotent (db : Store)
    (entity_id : Nat) (authorization_id : Nat) :
    (Crud.add_entity_authorization
      (Crud.add_entity_authorization db entity_id authorization_id).snd
      entity_id authorization_id).snd
    = (Crud.add_entity_authorization db entity_id authorization_id).snd := by
  rcases he : Crud.get_entity db entity_id with _ | e
  · simp [Crud.add_entity_authorization, he]
  rcases ha : Crud.get_authorization db authorization_id with _ | a
  · simp [Crud.add_entity_authorization, he, ha]
  by_cases hmem : a ∈ Crud.entityAuthorizations db e.id
  · simp [Crud.add_entity_authorization, he, ha, hmem]
  · have haid : a.id = authorization_id := by
      have := List.find?_some ha
      simpa using this
    have hstep : Crud.add_entity_authorization db entity_id authorization_id =
        (some e,
         { db with entity_authorizations :=
            db.entity_authorizations ++ [(e.id, a.id)] }) := by
      simp [Crud.add_entity_authorization, he, ha, hmem]
    set db2 : Store :=
      { db with entity_authorizations :=
          db.entity_authorizations ++ [(e.id, a.id)] } with hdb2
    have he2 : Crud.get_entity db2 entity_id = some e := he
    have ha2 : Crud.get_authorization db2 authorization_id = some a := ha
    have hmem2 : a ∈ Crud.entityAuthorizations db2 e.id := by
      refine mem_entityAuthorizations_of_pair db2 e.id a ?_ ?_
      · rw [haid]; exact ha2
      · simp [hdb2]
    rw [hstep]
    simp [Crud.add_entity_authorization, he2, ha2, hmem2]

/-- C4.  For a recognition query against an active ecosystem entity, the
outcome is true iff at least one RecognitionGrant edge of that entity
matches the queried registry DID, links to a recognition type with exactly
the queried `(action, resource)`, has its `recognized` flag set, and is
temporally valid at the evaluation instant — a purely existential check,
with no precedence rule between multiple matching edges. -/
theorem claim_C4_recognition_check_existential (db : Store)
    (recognizing_ecosystem_did : String) (recognized_registry_did : String)
    (action : String) (resource : String) (check_time : Int) (eco : Entity)
    (heco : db.entities.find? (fun e =>
        e.entity_did == recognizing_ecosystem_did &&
        e.entity_type == some ("ecosystem") &&
        e.status == some ("active")) = some eco) :
    Crud.check_ecosystem_recognition db recognizing_ecosystem_did
      recognized_registry_did action resource check_time = true ↔
    ∃ r ∈ db.entity_recognitions, ∃ rec ∈ db.recognitions,
      rec.id = r.recognition_id ∧
      r.entity_id = eco.id ∧
      r.recognized_registry_did = recognized_registry_did ∧
      r.recognized = true ∧
      (∀ v, r.valid_from = some v → v ≤ check_time) ∧
      (∀ v, r.valid_until = some v → check_time ≤ v) ∧
      rec.action = action ∧ rec.resource = resource := by
  unfold Crud.check_ecosystem_recognition
  rw [heco]
  simp only [List.any_eq_true, Bool.and_eq_true, beq_iff_eq,
    sqlNullOrLe_iff, sqlNullOrGe_iff, and_assoc]

/-- A grant row making the sample ecosystem recognize the sample registry
for `(recognize, ecosystem)` during the window 0 to 20. -/
def sampleGrant : EntityRecognitionRow :=
  { entity_id := 1, recognition_id := 1,
    recognized_registry_did := "did:ex:reg", recognized := true,
    valid_from := some 0, valid_until := some 20 }

/-- The sample store extended with one recognition grant. -/
def grantStore : Store :=
  { sampleStore with entity_recognitions := [sampleGrant] }

/-- Witness for C4 on the concrete grant store. -/
theorem claim_C4_witness :
    Crud.check_ecosystem_recognition grantStore ("did:ex:eco") ("did:ex:reg")
      ("recognize") ("ecosystem") 7 = true ↔
    ∃ r ∈ grantStore.entity_recognitions, ∃ rec ∈ grantStore.recognitions,
      rec.id = r.recognition_id ∧
      r.entity_id = ecoEntity.id ∧
      r.recognized_registry_did = ("did:ex:reg") ∧
      r.recognized = true ∧
      (∀ v, r.valid_from = some v → v ≤ 7) ∧
      (∀ v, r.valid_until = some v → (7 : Int) ≤ v) ∧
      rec.action = ("recognize") ∧ rec.resource = ("ecosystem") :=
  claim_C4_recognition_check_existential grantStore ("did:ex:eco")
    ("did:ex:reg") ("recognize") ("ecosystem") 7 ecoEntity rfl

/-- C1.  An authorization query with DID-shaped identifiers whose entity
does not resolve takes the not-found branch: the handler computes
`authorized = False` and the not-found message, but the response
construction itself raises a pydantic `ValidationError`, because the model
field is `assertion_verified` while the handler passes `authorized`. -/
theorem claim_C1_entity_not_found_authorization (db : Store) (q : TrqpQuery)
    (now : Int) (parse pydParse : String → Option Int)
    (h1 : pyStartsWith q.entity_id ("did:") = true)
    (h2 : pyStartsWith q.authority_id ("did:") = true)
    (h3 : Crud.get_entity_by_did db q.entity_id = none) :
    ∃ kwargs, TrqpCore.query_authorization db q now parse pydParse =
        HandlerResult.validationError ("assertion_verified") kwargs
      ∧ kwLookup kwargs ("authorized") = some (.vBool false)
      ∧ kwLookup kwargs ("message") =
          some (.vStr (authzEntityNotFoundMessage q.entity_id)) := by
  refine ⟨TrqpCore.authorizationKwargs q (extractTime q.context now parse).fst
      (extractTime q.context now parse).snd false
      (authzEntityNotFoundMessage q.entity_id), ?_, ?_, ?_⟩
  · simp [TrqpCore.query_authorization, h1, h2, h3,
      buildAuthorizationResponse_raises]
  · exact authorizationKwargs_authorized q _ _ false _
  · exact authorizationKwargs_message q _ _ false _

/-- A query about an entity unknown to the store. -/
def qAbsent : TrqpQuery :=
  { entity_id := "did:ex:absent", authority_id := "did:ex:eco",
    action := "issue", resource := "credential", context := none }

/-- Witness for C1 at the failing input: the empty store and a DID-shaped
query. -/
theorem claim_C1_witness :
    ∃ kwargs, TrqpCore.query_authorization emptyStore qAbsent 0 noParse noParse =
        HandlerResult.validationError ("assertion_verified") kwargs
      ∧ kwLookup kwargs ("authorized") = some (.vBool false)
      ∧ kwLookup kwargs ("message") =
          some (.vStr (authzEntityNotFoundMessage qAbsent.entity_id)) :=
  claim_C1_entity_not_found_authorization emptyStore qAbsent 0 noParse noParse
    (by decide) (by decide) rfl

/-- No entity of the store satisfies the three-condition filter of
`check_entity_authorization` when the (unique) entity carrying the queried
DID is inactive or governed by a different authority. -/
theorem auth_filter_none (db : Store) (did : String) (aid : String) (e : Entity)
    (huniq : ∀ x ∈ db.entities, x.entity_did = did → x = e)
    (hfail : e.status ≠ some ("active") ∨ e.authority_id ≠ some aid) :
    db.entities.find? (fun x =>
      x.entity_did == did &&
      x.authority_id == some aid &&
      x.status == some ("active")) = none := by
  rw [List.find?_eq_none]
  intro x hx hpx
  simp only [Bool.and_eq_true, beq_iff_eq] at hpx
  obtain ⟨⟨hd, hauth⟩, hst⟩ := hpx
  have hxe := huniq x hx hd
  subst hxe
  rcases hfail with hf | hf
  · exact hf hst
  · exact hf hauth

/-- C5.  When the queried entity resolves but is inactive or governed by a
different authority, the computed outcome is `authorized = false`
regardless of the grants it holds: the CRUD check returns false and the
handler binds `authorized` to false without consulting the grant list
(the response constructor then raises for the unrelated field-name slip
recorded with C1). -/
theorem claim_C5_inactive_or_foreign_entity_not_authorized (db : Store)
    (q : TrqpQuery) (now : Int) (parse pydParse : String → Option Int) (e : Entity)
    (h1 : pyStartsWith q.entity_id ("did:") = true)
    (h2 : pyStartsWith q.authority_id ("did:") = true)
    (hfirst : Crud.get_entity_by_did db q.entity_id = some e)
    (huniq : ∀ x ∈ db.entities, x.entity_did = q.entity_id → x = e)
    (hfail : e.status ≠ some ("active") ∨ e.authority_id ≠ some q.authority_id) :
    Crud.check_entity_authorization db q.entity_id q.authority_id
      q.action q.resource = false
    ∧ ∃ kwargs, TrqpCore.query_authorization db q now parse pydParse =
        HandlerResult.validationError ("assertion_verified") kwargs
      ∧ kwLookup kwargs ("authorized") = some (.vBool false) := by
  constructor
  · unfold Crud.check_entity_authorization
    rw [auth_filter_none db q.entity_id q.authority_id e huniq hfail]
  · by_cases hA : e.authority_id = some q.authority_id
    · have hS : e.status ≠ some ("active") := by
        rcases hfail with hf | hf
        · exact hf
        · exact absurd hA hf
      refine ⟨TrqpCore.authorizationKwargs q (extractTime q.context now parse).fst
          (extractTime q.context now parse).snd false
          (authzNotActiveMessage q.entity_id e.status), ?_, ?_⟩
      · simp [TrqpCore.query_authorization, h1, h2, hfirst, hA, hS,
          buildAuthorizationResponse_raises]
      · exact authorizationKwargs_authorized q _ _ false _
    · refine ⟨TrqpCore.authorizationKwargs q (extractTime q.context now parse).fst
          (extractTime q.context now parse).snd false
          (authzNotGovernedMessage q.entity_id q.authority_id), ?_, ?_⟩
      · simp [TrqpCore.query_authorization, h1, h2, hfirst, hA,
          buildAuthorizationResponse_raises]
      · exact authorizationKwargs_authorized q _ _ false _

/-- A query about the dormant ecosystem entity under the sample
authority. -/
def qDormant : TrqpQuery :=
  { entity_id := "did:ex:dormant", authority_id := "did:ex:eco",
    action := "issue", resource := "credential", context := none }

/-- Witness for C5: the dormant entity resolves, is inactive, and the
outcome computed is false. -/
theorem claim_C5_witness :
    Crud.check_entity_authorization sampleStore qDormant.entity_id
      qDormant.authority_id qDormant.action qDormant.resource = false
    ∧ ∃ kwargs, TrqpCore.query_authorization sampleStore qDormant 0 noParse noParse =
        HandlerResult.validationError ("assertion_verified") kwargs
      ∧ kwLookup kwargs ("authorized") = some (.vBool false) :=
  claim_C5_inactive_or_foreign_entity_not_authorized sampleStore qDormant 0
    noParse noParse dormantEco (by decide) (by decide) rfl (by decide)
    (Or.inl (by decide))

/-- Whatever branch `query_authorization` ends in once the DID shape checks
pass, it is a response construction carrying the extracted time pair. -/
theorem query_authorization_builds_response (db : Store) (q : TrqpQuery)
    (now : Int) (parse pydParse : String → Option Int)
    (h1 : pyStartsWith q.entity_id ("did:") = true)
    (h2 : pyStartsWith q.authority_id ("did:") = true) :
    ∃ b m, TrqpCore.query_authorization db q now parse pydParse =
      TrqpCore.buildAuthorizationResponse q pydParse (extractTime q.context now parse).fst
        (extractTime q.context now parse).snd b m := by
  rcases hent : Crud.get_entity_by_did db q.entity_id with _ | e
  · simp [TrqpCore.query_authorization, h1, h2, hent]
  · by_cases hA : e.authority_id = some q.authority_id
    · by_cases hS : e.status = some ("active")
      · simp [TrqpCore.query_authorization, h1, h2, hent, hA, hS]
      · simp [TrqpCore.query_authorization, h1, h2, hent, hA, hS]
    · simp [TrqpCore.query_authorization, h1, h2, hent, hA]

/-- A recognition/authorization query with a malformed context time. -/
def qBadTime : TrqpQuery :=
  { entity_id := "did:ex:reg", authority_id := "did:ex:eco",
    action := "recognize", resource := "ecosystem",
    context := some [(("time"), .str ("not-a-date"))] }

/-- C10 counterexample: with context time set to a string no datetime
grammar accepts, the recognition query is rejected — the response
construction raises on `time_requested` — instead of returning a response
that retains the raw string. -/
theorem claim_C10_counterexample :
    TrqpCore.query_recognition sampleStore qBadTime 0 noParse noParse =
      HandlerResult.validationError ("time_requested")
        (TrqpCore.recognitionKwargs qBadTime (some (.vStr ("not-a-date")))
          (.vTime 0) false (recognitionOutcomeMessage false qBadTime)) := rfl

/-- C10 (amended).  A context `time` string failing the handler's
ISO-8601 parse is swallowed there and not fully ignored: the raw string
is bound to `time_requested` in the keyword arguments of the response
construction (it was assigned before the parse attempt), while
`time_evaluated` — and, for recognition, the temporal check — fall back
to wall-clock now.  The constructed response, however, never retains the
raw string: pydantic validates the `Optional[datetime]`-typed
`time_requested`, so the recognition construction raises — the query
fails with a server error — when the pydantic parser also fails on the
string, and stores the parsed datetime when it succeeds.  (The
authorization construction raises on `assertion_verified` first, the
slip recorded with C1, with the same raw time values among its keyword
arguments.) -/
theorem claim_C10_unparseable_context_time (db : Store) (q : TrqpQuery)
    (now : Int) (parse pydParse : String → Option Int)
    (c : List (String × CtxVal)) (s : String) (eco : Entity)
    (hctx : q.context = some c)
    (htime : lookupCtx c ("time") = some (.str s))
    (hbad : parse s = none)
    (h1 : pyStartsWith q.entity_id ("did:") = true)
    (h2 : pyStartsWith q.authority_id ("did:") = true)
    (heco : Crud.get_entity_by_did db q.authority_id = some eco)
    (htype : eco.entity_type = some ("ecosystem")) :
    (pydParse s = none →
      TrqpCore.query_recognition db q now parse pydParse =
        HandlerResult.validationError ("time_requested")
          (TrqpCore.recognitionKwargs q (some (.vStr s)) (.vTime now)
            (Crud.check_ecosystem_recognition db q.authority_id q.entity_id
              q.action q.resource now)
            (recognitionOutcomeMessage
              (Crud.check_ecosystem_recognition db q.authority_id q.entity_id
                q.action q.resource now) q)))
    ∧ (∀ t0, pydParse s = some t0 →
      ∃ fields, TrqpCore.query_recognition db q now parse pydParse =
          HandlerResult.ok fields
        ∧ kwLookup fields ("time_requested") = some (.vTime t0)
        ∧ kwLookup fields ("time_evaluated") = some (.vTime now)
        ∧ kwLookup fields ("recognized") = some (.vBool
            (Crud.check_ecosystem_recognition db q.authority_id q.entity_id
              q.action q.resource now)))
    ∧ (∃ kwargs, TrqpCore.query_authorization db q now parse pydParse =
          HandlerResult.validationError ("assertion_verified") kwargs
      ∧ kwLookup kwargs ("time_requested") = some (.vStr s)
      ∧ kwLookup kwargs ("time_evaluated") = some (.vTime now)) := by
  have hext : extractTime q.context now parse = (some (.vStr s), .vTime now) := by
    rw [hctx]
    exact extractTime_badString c s now parse htime hbad
  refine ⟨?_, ?_, ?_⟩
  · intro hps
    have hbuild := buildRecognitionResponse_badStr q pydParse s now
      (Crud.check_ecosystem_recognition db q.authority_id q.entity_id
        q.action q.resource now)
      (recognitionOutcomeMessage
        (Crud.check_ecosystem_recognition db q.authority_id q.entity_id
          q.action q.resource now) q) hps
    simp [TrqpCore.query_recognition, h1, h2, heco, htype, hext, asInstant,
      hbuild]
  · intro t0 hps
    have hbuild := buildRecognitionResponse_coerced q pydParse s t0 now
      (Crud.check_ecosystem_recognition db q.authority_id q.entity_id
        q.action q.resource now)
      (recognitionOutcomeMessage
        (Crud.check_ecosystem_recognition db q.authority_id q.entity_id
          q.action q.resource now) q) hps
    refine ⟨TrqpCore.recognitionKwargs q (some (.vTime t0)) (.vTime now)
        (Crud.check_ecosystem_recognition db q.authority_id q.entity_id
          q.action q.resource now)
        (recognitionOutcomeMessage
          (Crud.check_ecosystem_recognition db q.authority_id q.entity_id
            q.action q.resource now) q), ?_, ?_, ?_, ?_⟩
    · simp [TrqpCore.query_recognition, h1, h2, heco, htype, hext, asInstant,
        hbuild]
    · exact recognitionKwargs_time_requested q _ _ _ _
    · exact recognitionKwargs_time_evaluated q _ _ _ _
    · exact recognitionKwargs_recognized q _ _ _ _
  · obtain ⟨b, m, heq⟩ :=
      query_authorization_builds_response db q now parse pydParse h1 h2
    rw [hext] at heq
    refine ⟨TrqpCore.authorizationKwargs q (some (.vStr s)) (.vTime now) b m,
        ?_, ?_, ?_⟩
    · rw [heq]
      exact buildAuthorizationResponse_raises q pydParse _ _ b m
    · exact authorizationKwargs_time_requested q _ _ b m
    · exact authorizationKwargs_time_evaluated q _ _ b m

/-- Witness for C10 (amended) on the sample store, with a pydantic parser
that also rejects the string. -/
theorem claim_C10_witness :
    (noParse ("not-a-date") = none →
      TrqpCore.query_recognition sampleStore qBadTime 0 noParse noParse =
        HandlerResult.validationError ("time_requested")
          (TrqpCore.recognitionKwargs qBadTime (some (.vStr ("not-a-date")))
            (.vTime 0)
            (Crud.check_ecosystem_recognition sampleStore qBadTime.authority_id
              qBadTime.entity_id qBadTime.action qBadTime.resource 0)
            (recognitionOutcomeMessage
              (Crud.check_ecosystem_recognition sampleStore qBadTime.authority_id
                qBadTime.entity_id qBadTime.action qBadTime.resource 0) qBadTime)))
    ∧ (∀ t0, noParse ("not-a-date") = some t0 →
      ∃ fields, TrqpCore.query_recognition sampleStore qBadTime 0 noParse noParse =
          HandlerResult.ok fields
        ∧ kwLookup fields ("time_requested") = some (.vTime t0)
        ∧ kwLookup fields ("time_evaluated") = some (.vTime 0)
        ∧ kwLookup fields ("recognized") = some (.vBool
            (Crud.check_ecosystem_recognition sampleStore qBadTime.authority_id
              qBadTime.entity_id qBadTime.action qBadTime.resource 0)))
    ∧ (∃ kwargs,
        TrqpCore.query_authorization sampleStore qBadTime 0 noParse noParse =
          HandlerResult.validationError ("assertion_verified") kwargs
      ∧ kwLookup kwargs ("time_requested") = some (.vStr ("not-a-date"))
      ∧ kwLookup kwargs ("time_evaluated") = some (.vTime 0)) :=
  claim_C10_unparseable_context_time sampleStore qBadTime 0 noParse noParse
    [(("time"), .str ("not-a-date"))] ("not-a-date") ecoEntity
    rfl rfl rfl (by decide) (by decide) rfl rfl


theorem recognitionKwargs_message (q : TrqpQuery) (tr : Option PyValue)
    (tev : PyValue) (b : Bool) (m : String) :
    kwLookup (TrqpCore.recognitionKwargs q tr tev b m) ("message") =
      some (.vStr m) := rfl

/-- No entity of the store satisfies the three-condition filter of
`check_ecosystem_recognition` when the (unique) entity carrying the DID is
not an active ecosystem. -/
theorem eco_filter_none (db : Store) (did : String) (e : Entity)
    (huniq : ∀ x ∈ db.entities, x.entity_did = did → x = e)
    (hfail : e.entity_type ≠ some ("ecosystem") ∨ e.status ≠ some ("active")) :
    db.entities.find? (fun x =>
      x.entity_did == did &&
      x.entity_type == some ("ecosystem") &&
      x.status == some ("active")) = none := by
  rw [List.find?_eq_none]
  intro x hx hpx
  simp only [Bool.and_eq_true, beq_iff_eq] at hpx
  obtain ⟨⟨hd, hty⟩, hst⟩ := hpx
  have hxe := huniq x hx hd
  subst hxe
  rcases hfail with hf | hf
  · exact hf hty
  · exact hf hst

/-- C2 counterexample: when the recognizing ecosystem does not resolve,
the recognition operation raises HTTP 404 instead of returning a typed
`recognized = false` answer. -/
theorem claim_C2_counterexample :
    TrqpCore.query_recognition emptyStore qAbsent 0 noParse noParse =
      HandlerResult.httpError 404 ("Recognizing Ecosystem Not Found") := rfl

/-- C2 (amended).  An unresolved recognizing ecosystem raises HTTP 404 and
a resolved non-ecosystem authority raises HTTP 400; only a resolved
ecosystem-typed entity that is not active yields the typed
`recognized = false` answer (with the generic does-not-recognize message,
not a distinguishing reason). -/
theorem claim_C2_recognition_authority_failures (db : Store) (q : TrqpQuery)
    (now : Int) (parse pydParse : String → Option Int)
    (h1 : pyStartsWith q.entity_id ("did:") = true)
    (h2 : pyStartsWith q.authority_id ("did:") = true) :
    (Crud.get_entity_by_did db q.authority_id = none →
      TrqpCore.query_recognition db q now parse pydParse =
        HandlerResult.httpError 404 ("Recognizing Ecosystem Not Found"))
    ∧ (∀ eco, Crud.get_entity_by_did db q.authority_id = some eco →
        eco.entity_type ≠ some ("ecosystem") →
        TrqpCore.query_recognition db q now parse pydParse =
          HandlerResult.httpError 400 ("Invalid Entity Type"))
    ∧ (∀ eco, Crud.get_entity_by_did db q.authority_id = some eco →
        eco.entity_type = some ("ecosystem") →
        eco.status ≠ some ("active") →
        (∀ x ∈ db.entities, x.entity_did = q.authority_id → x = eco) →
        q.context = none →
        ∃ fields, TrqpCore.query_recognition db q now parse pydParse =
            HandlerResult.ok fields
          ∧ kwLookup fields ("recognized") = some (.vBool false)
          ∧ kwLookup fields ("message") = some (.vStr
              (recognitionOutcomeMessage false q))) := by
  refine ⟨?_, ?_, ?_⟩
  · intro hmiss
    simp [TrqpCore.query_recognition, h1, h2, hmiss]
  · intro eco heco htype
    simp [TrqpCore.query_recognition, h1, h2, heco, htype]
  · intro eco heco htype hstatus huniq hctx
    have hcheck : Crud.check_ecosystem_recognition db q.authority_id q.entity_id
        q.action q.resource now = false := by
      unfold Crud.check_ecosystem_recognition
      rw [eco_filter_none db q.authority_id eco huniq (Or.inr hstatus)]
    refine ⟨TrqpCore.recognitionKwargs q none (.vTime now) false
        (recognitionOutcomeMessage false q), ?_, ?_, ?_⟩
    · simp [TrqpCore.query_recognition, h1, h2, heco, htype, hctx,
        extractTime_none, asInstant, hcheck, buildRecognitionResponse_ok_none]
    · exact recognitionKwargs_recognized q _ _ _ _
    · exact recognitionKwargs_message q _ _ _ _

/-- A recognition query whose recognizing ecosystem is the dormant
(inactive) sample ecosystem. -/
def qRecogDormant : TrqpQuery :=
  { entity_id := "did:ex:reg", authority_id := "did:ex:dormant",
    action := "recognize", resource := "ecosystem", context := none }

/-- Witness for C2 (amended) on the sample store. -/
theorem claim_C2_witness :
    (Crud.get_entity_by_did sampleStore qRecogDormant.authority_id = none →
      TrqpCore.query_recognition sampleStore qRecogDormant 0 noParse noParse =
        HandlerResult.httpError 404 ("Recognizing Ecosystem Not Found"))
    ∧ (∀ eco, Crud.get_entity_by_did sampleStore qRecogDormant.authority_id = some eco →
        eco.entity_type ≠ some ("ecosystem") →
        TrqpCore.query_recognition sampleStore qRecogDormant 0 noParse noParse =
          HandlerResult.httpError 400 ("Invalid Entity Type"))
    ∧ (∀ eco, Crud.get_entity_by_did sampleStore qRecogDormant.authority_id = some eco →
        eco.entity_type = some ("ecosystem") →
        eco.status ≠ some ("active") →
        (∀ x ∈ sampleStore.entities, x.entity_did = qRecogDormant.authority_id → x = eco) →
        qRecogDormant.context = none →
        ∃ fields, TrqpCore.query_recognition sampleStore qRecogDormant 0 noParse noParse =
            HandlerResult.ok fields
          ∧ kwLookup fields ("recognized") = some (.vBool false)
          ∧ kwLookup fields ("message") = some (.vStr
              (recognitionOutcomeMessage false qRecogDormant))) :=
  claim_C2_recognition_authority_failures sampleStore qRecogDormant 0 noParse noParse
    (by decide) (by decide)

/-- A grant-creation request naming a registry DID unknown to the store. -/
def rcGhost : EntityRecognitionCreate :=
  { recognition_id := 1, recognized_registry_did := "did:ex:ghost",
    recognized := true, valid_from := none, valid_until := none }

/-- C6 counterexample: the admin write path rejects a RecognitionGrant
whose recognized registry DID does not resolve to a stored entity, so such
a grant cannot be created. -/
theorem claim_C6_counterexample :
    Admin.add_entity_recognition sampleStore 1 rcGhost noParse =
      Except.error ⟨400, ("Recognized registry DID does not exist in the system")⟩ := rfl

/-- C6 (amended).  The query path needs no existence: a recognition query
whose target resolves to no local entity still gets a typed answer, and
`crud.add_entity_recognition` itself inserts the edge without looking the
registry DID up; but the admin creation endpoint rejects a
`recognized_registry_did` that does not resolve to a stored entity. -/
theorem claim_C6_registry_existence_checks (db : Store) (q : TrqpQuery)
    (now : Int) (parse pydParse : String → Option Int) (eco : Entity)
    (entity_id : Nat) (rc : EntityRecognitionCreate) (e : Entity)
    (h1 : pyStartsWith q.entity_id ("did:") = true)
    (h2 : pyStartsWith q.authority_id ("did:") = true)
    (hmiss : Crud.get_entity_by_did db q.entity_id = none)
    (heco : Crud.get_entity_by_did db q.authority_id = some eco)
    (htype : eco.entity_type = some ("ecosystem"))
    (hctx : q.context = none)
    (hent : Crud.get_entity db entity_id = some e)
    (hetype : e.entity_type = some ("ecosystem"))
    (hself : e.entity_did ≠ rc.recognized_registry_did) :
    (∃ fields, TrqpCore.query_recognition db q now parse pydParse = HandlerResult.ok fields
      ∧ kwLookup fields ("recognized") = some (.vBool
          (Crud.check_ecosystem_recognition db q.authority_id q.entity_id
            q.action q.resource now)))
    ∧ (∀ rid rdid recog vf vu rec, Crud.get_recognition db rid = some rec →
        Crud.add_entity_recognition db entity_id rid rdid recog vf vu =
          (some e, { db with entity_recognitions := db.entity_recognitions ++
            [{ entity_id := entity_id, recognition_id := rid,
               recognized_registry_did := rdid, recognized := recog,
               valid_from := vf, valid_until := vu }] }))
    ∧ (Crud.get_entity_by_did db rc.recognized_registry_did = none →
        Admin.add_entity_recognition db entity_id rc parse =
          Except.error ⟨400, ("Recognized registry DID does not exist in the system")⟩) := by
  refine ⟨?_, ?_, ?_⟩
  · refine ⟨TrqpCore.recognitionKwargs q none (.vTime now)
        (Crud.check_ecosystem_recognition db q.authority_id q.entity_id
          q.action q.resource now)
        (recognitionOutcomeMessage
          (Crud.check_ecosystem_recognition db q.authority_id q.entity_id
            q.action q.resource now) q), ?_, ?_⟩
    · simp [TrqpCore.query_recognition, h1, h2, heco, htype, hctx,
        extractTime_none, asInstant, buildRecognitionResponse_ok_none]
    · exact recognitionKwargs_recognized q _ _ _ _
  · intro rid rdid recog vf vu rec hrec
    unfold Crud.add_entity_recognition
    rw [hent, hrec]
    simp [hetype]
  · intro hghost
    unfold Admin.add_entity_recognition
    rw [hent]
    simp [hetype, hself, hghost]

/-- A recognition query targeting a registry DID unknown to the store. -/
def qRecogGhost : TrqpQuery :=
  { entity_id := "did:ex:ghost", authority_id := "did:ex:eco",
    action := "recognize", resource := "ecosystem", context := none }

/-- Witness for C6 (amended) on the sample store. -/
theorem claim_C6_witness :
    (∃ fields, TrqpCore.query_recognition sampleStore qRecogGhost 0 noParse noParse =
        HandlerResult.ok fields
      ∧ kwLookup fields ("recognized") = some (.vBool
          (Crud.check_ecosystem_recognition sampleStore qRecogGhost.authority_id
            qRecogGhost.entity_id qRecogGhost.action qRecogGhost.resource 0)))
    ∧ (∀ rid rdid recog vf vu rec,
        Crud.get_recognition sampleStore rid = some rec →
        Crud.add_entity_recognition sampleStore 1 rid rdid recog vf vu =
          (some ecoEntity, { sampleStore with entity_recognitions :=
            sampleStore.entity_recognitions ++
            [{ entity_id := 1, recognition_id := rid,
               recognized_registry_did := rdid, recognized := recog,
               valid_from := vf, valid_until := vu }] }))
    ∧ (Crud.get_entity_by_did sampleStore rcGhost.recognized_registry_did = none →
        Admin.add_entity_recognition sampleStore 1 rcGhost noParse =
          Except.error ⟨400, ("Recognized registry DID does not exist in the system")⟩) :=
  claim_C6_registry_existence_checks sampleStore qRecogGhost 0 noParse noParse ecoEntity
    1 rcGhost ecoEntity (by decide) (by decide) rfl rfl rfl rfl rfl rfl
    (by decide)

/-- A grant-creation request whose `valid_from` parses to 10 and
`valid_until` to 5 under `twoDates` — a backward window. -/
def backwardGrant : EntityRecognitionCreate :=
  { recognition_id := 1, recognized_registry_did := "did:ex:reg",
    recognized := true, valid_from := some ("B"), valid_until := some ("A") }

/-- C7 counterexample: the write path accepts and stores a grant whose
`valid_from` (10) is later than its `valid_until` (5) — nothing rejects
the backward window. -/
theorem claim_C7_counterexample :
    Admin.add_entity_recognition sampleStore 1 backwardGrant twoDates =
      Except.ok { sampleStore with entity_recognitions :=
        [{ entity_id := 1, recognition_id := 1,
           recognized_registry_did := "did:ex:reg", recognized := true,
           valid_from := some 10, valid_until := some 5 }] } := rfl

/-- C7 (amended).  Once the entity, type, self-reference, registry
existence and parse checks pass, the grant is stored exactly as parsed —
with no condition whatsoever relating `valid_from` to `valid_until`. -/
theorem claim_C7_no_bound_order_check (db : Store) (entity_id : Nat)
    (rc : EntityRecognitionCreate) (parse : String → Option Int) (e : Entity)
    (rec : Recognition) (vf vu : Option Int)
    (hent : Crud.get_entity db entity_id = some e)
    (hetype : e.entity_type = some ("ecosystem"))
    (hself : e.entity_did ≠ rc.recognized_registry_did)
    (hreg : (Crud.get_entity_by_did db rc.recognized_registry_did).isSome = true)
    (hrec : Crud.get_recognition db rc.recognition_id = some rec)
    (hvf : Admin.parseBound rc.valid_from parse = some vf)
    (hvu : Admin.parseBound rc.valid_until parse = some vu) :
    Admin.add_entity_recognition db entity_id rc parse =
      Except.ok { db with entity_recognitions := db.entity_recognitions ++
        [{ entity_id := entity_id, recognition_id := rc.recognition_id,
           recognized_registry_did := rc.recognized_registry_did,
           recognized := rc.recognized, valid_from := vf, valid_until := vu }] } := by
  rcases hr : Crud.get_entity_by_did db rc.recognized_registry_did with _ | reg
  · rw [hr] at hreg
    simp at hreg
  · unfold Admin.add_entity_recognition
    rw [hent]
    simp only [hetype, hself, hr, hvf, hvu]
    unfold Crud.add_entity_recognition
    rw [hent, hrec]
    simp [hetype]

/-- Witness for C7 (amended), instantiated at the backward window. -/
theorem claim_C7_witness :
    Admin.add_entity_recognition sampleStore 1 backwardGrant twoDates =
      Except.ok { sampleStore with entity_recognitions :=
        sampleStore.entity_recognitions ++
        [{ entity_id := 1, recognition_id := 1,
           recognized_registry_did := "did:ex:reg", recognized := true,
           valid_from := some 10, valid_until := some 5 }] } :=
  claim_C7_no_bound_order_check sampleStore 1 backwardGrant twoDates ecoEntity
    recogType (some 10) (some 5) rfl rfl (by decide) rfl rfl rfl rfl

/-- The candidate authority is absent or DID-shaped.  (A present
non-DID-shaped candidate is stopped by a separate structural 400 before
the hierarchy checks and is outside the claim.) -/
def didShapedOpt (c : Option String) : Prop :=
  ∀ s, c = some s → pyStartsWith s ("did:") = true

/-- A DID-shaped string is truthy (it is non-empty). -/
theorem pyTruthy_of_didShaped (a : String)
    (h : pyStartsWith a ("did:") = true) : pyTruthyStr (some a) = true := by
  unfold pyTruthyStr
  unfold pyStartsWith at h
  cases hd : a.data with
  | nil =>
      rw [hd] at h
      exact absurd h (by decide)
  | cons x xs => simp [hd]

/-- The inline authority validation of entity creation agrees with the
Hierarchy Validator of the specification, error for error. -/
theorem create_validation_matches (db : Store) (e : EntityCreate)
    (hce : didShapedOpt e.authority_id) :
    Admin.create_entity_authority_validation db e =
      (validateAuthority e.authority_id e.entity_type db).mapError
        (fun err => (⟨400, hierarchyMsg err⟩ : HttpError)) := by
  rcases hc : e.authority_id with _ | a
  · unfold Admin.create_entity_authority_validation validateAuthority
    rw [hc]
    by_cases hty : e.entity_type = some ("ecosystem") <;>
      simp [hty, pyTruthyStr, Except.mapError, hierarchyMsg]
  · have ha : pyStartsWith a ("did:") = true := hce a hc
    have htruthy := pyTruthy_of_didShaped a ha
    unfold Admin.create_entity_authority_validation validateAuthority
    rw [hc]
    rcases hauth : Crud.get_entity_by_did db a with _ | ae
    · simp [htruthy, ha, hauth, Except.mapError, hierarchyMsg]
    · by_cases hst : ae.status = some ("active")
      · by_cases hety : ae.entity_type = some ("ecosystem") <;>
          simp [htruthy, ha, hauth, hst, hety, Except.mapError, hierarchyMsg]
      · simp [htruthy, ha, hauth, hst, Except.mapError, hierarchyMsg]

/-- The inline authority validation of entity update agrees with the
Hierarchy Validator of the specification (evaluated at the effective
entity type), error for error, provided the entity exists. -/
theorem update_validation_matches (db : Store) (entity_id : Nat)
    (u : EntityUpdate) (v : Option String) (cur : Entity)
    (hua : u.authority_id = some v) (huv : didShapedOpt v)
    (hcur : Crud.get_entity db entity_id = some cur) :
    Admin.update_entity_authority_validation db entity_id u =
      (validateAuthority v (Admin.entityTypeForValidation u cur) db).mapError
        (fun err => (⟨400, hierarchyMsg err⟩ : HttpError)) := by
  rcases hv : v with _ | a
  · unfold Admin.update_entity_authority_validation validateAuthority
    rw [hua, hv, hcur]
    by_cases hty : Admin.entityTypeForValidation u cur = some ("ecosystem") <;>
      simp [hty, pyTruthyStr, Except.mapError, hierarchyMsg]
  · have ha : pyStartsWith a ("did:") = true := huv a hv
    have htruthy := pyTruthy_of_didShaped a ha
    unfold Admin.update_entity_authority_validation validateAuthority
    rw [hua, hv]
    rcases hauth : Crud.get_entity_by_did db a with _ | ae
    · simp [htruthy, ha, hauth, Except.mapError, hierarchyMsg]
    · by_cases hst : ae.status = some ("active")
      · by_cases hety : ae.entity_type = some ("ecosystem") <;>
          simp [htruthy, ha, hauth, hst, hety, Except.mapError, hierarchyMsg]
      · simp [htruthy, ha, hauth, hst, Except.mapError, hierarchyMsg]

/-- C8.  At entity create and update, authority validation behaves as the
Hierarchy Validator: a null candidate is valid only for an `ecosystem`
entity type (missing-authority error otherwise); a present candidate must
resolve to a stored, active, ecosystem-typed entity, failing with a
distinct 400 detail for not-found, inactive and not-ecosystem
respectively; and a validated request goes through to the CRUD layer. -/
theorem claim_C8_authority_validation (db : Store) (e : EntityCreate)
    (entity_id : Nat) (u : EntityUpdate) (v : Option String) (cur : Entity)
    (hce : didShapedOpt e.authority_id)
    (hshape : pyStartsWith e.entity_did ("did:") = true)
    (hnew : Crud.get_entity_by_did db e.entity_did = none)
    (hua : u.authority_id = some v)
    (huv : didShapedOpt v)
    (hud : u.entity_did = none)
    (hcur : Crud.get_entity db entity_id = some cur) :
    (∀ err, validateAuthority e.authority_id e.entity_type db = .error err →
      Admin.create_entity db e = .error ⟨400, hierarchyMsg err⟩)
    ∧ (validateAuthority e.authority_id e.entity_type db = .ok () →
      Admin.create_entity db e = .ok (Crud.create_entity db e))
    ∧ (∀ err, validateAuthority v (Admin.entityTypeForValidation u cur) db = .error err →
      Admin.update_entity db entity_id u = .error ⟨400, hierarchyMsg err⟩)
    ∧ (validateAuthority v (Admin.entityTypeForValidation u cur) db = .ok () →
      ∃ r, Admin.update_entity db entity_id u = .ok r) := by
  have hcv := create_validation_matches db e hce
  have huvm := update_validation_matches db entity_id u v cur hua huv hcur
  refine ⟨?_, ?_, ?_, ?_⟩
  · intro err herr
    unfold Admin.create_entity
    rw [hnew]
    simp [hshape, hcv, herr, Except.mapError, Bind.bind, Except.bind]
  · intro hok
    unfold Admin.create_entity
    rw [hnew]
    simp [hshape, hcv, hok, Except.mapError, Bind.bind, Except.bind]
  · intro err herr
    unfold Admin.update_entity
    simp [hud, huvm, herr, Except.mapError, Bind.bind, Except.bind]
  · intro hok
    unfold Admin.update_entity
    rcases harb : u.authorization_ids with _ | ids <;>
      simp [hud, huvm, hok, Except.mapError, Crud.update_entity, hcur, harb,
        Bind.bind, Except.bind]

/-- A creation request for a new organization under the sample
ecosystem. -/
def eCreateOrg : EntityCreate :=
  { entity_did := "did:ex:new", authority_id := some ("did:ex:eco"),
    name := none, entity_type := some ("organization"), status := "active",
    description := none, authorization_ids := none }

/-- An update setting the authority of the sample organization to the
sample ecosystem. -/
def uSetAuthority : EntityUpdate :=
  { entity_did := none, authority_id := some (some ("did:ex:eco")),
    name := none, entity_type := none, status := none, description := none,
    authorization_ids := none }

/-- Witness for C8 on the sample store. -/
theorem claim_C8_witness :
    (∀ err, validateAuthority eCreateOrg.authority_id eCreateOrg.entity_type
        sampleStore = .error err →
      Admin.create_entity sampleStore eCreateOrg = .error ⟨400, hierarchyMsg err⟩)
    ∧ (validateAuthority eCreateOrg.authority_id eCreateOrg.entity_type
        sampleStore = .ok () →
      Admin.create_entity sampleStore eCreateOrg =
        .ok (Crud.create_entity sampleStore eCreateOrg))
    ∧ (∀ err, validateAuthority (some ("did:ex:eco"))
        (Admin.entityTypeForValidation uSetAuthority regEntity) sampleStore =
          .error err →
      Admin.update_entity sampleStore 2 uSetAuthority = .error ⟨400, hierarchyMsg err⟩)
    ∧ (validateAuthority (some ("did:ex:eco"))
        (Admin.entityTypeForValidation uSetAuthority regEntity) sampleStore = .ok () →
      ∃ r, Admin.update_entity sampleStore 2 uSetAuthority = .ok r) :=
  claim_C8_authority_validation sampleStore eCreateOrg 2 uSetAuthority
    (some ("did:ex:eco")) regEntity
    (by intro s hs; injection hs with h; subst h; decide)
    (by decide) rfl rfl
    (by intro s hs; injection hs with h; subst h; decide)
    rfl rfl

end TrustRegistry
